import Mathlib

/-!
# matrix-graphic: the render loop of `src/OpenGL/main.cpp`

A shallow embedding of the single translation unit of the repository:

* the per-frame animation update of `main` (offset, rotation angle and scale
  oscillators), with the `float` variables read as exact rationals;
* the mesh data uploaded by `CreateTriangle` and the indexed draw of `main`;
* `AddShader`, `CompileShaders` and the setup and render loop of `main`, run
  against a graphics backend modelled as an oracle that answers the queries of
  the program, with every call recorded in order.
-/

namespace MatrixGraphic

/-! ## Animation state (main.cpp lines 248-301) -/

/-- The local variables of `main` that the render loop mutates. -/
structure AnimState where
  direction : Bool
  triOffset : ℚ
  currentDegrees : ℚ
  currentScale : ℚ
  isIncreasing : Bool
deriving DecidableEq

/-- The constant `float angleIncrement = 3.75f`. -/
def angleIncrement : ℚ := 15 / 4

/-- The constant `float scaleIncrement = 0.01f`. -/
def scaleIncrement : ℚ := 1 / 100

/-- The constant `float maxScale = 1.0f`. -/
def maxScale : ℚ := 1

/-- The constant `float minScale = 0.1f`. -/
def minScale : ℚ := 1 / 10

/-- The constant `float triMaxOffset = 0.95f`. -/
def triMaxOffset : ℚ := 19 / 20

/-- The constant `float triIncrement = 0.025f`. -/
def triIncrement : ℚ := 1 / 40

/-- The values of the animation variables when the loop is entered
(lines 249-259). -/
def initAnim : AnimState :=
  { direction := true
    triOffset := 0
    currentDegrees := 0
    currentScale := 1 / 10
    isIncreasing := true }

/-- Lines 269-281: move the offset one step in the current direction, then flip
the direction when the magnitude of the new offset is above `triMaxOffset`.
The call `abs(triOffset)` is read as the absolute value of its `float`
argument. -/
def stepOffset (s : AnimState) : AnimState :=
  let s1 : AnimState :=
    if s.direction then { s with triOffset := s.triOffset + triIncrement }
    else { s with triOffset := s.triOffset - triIncrement }
  if |s1.triOffset| > triMaxOffset then { s1 with direction := !s1.direction }
  else s1

/-- Lines 283-287: subtract 360 when the angle is above 360, then add the
increment. -/
def stepAngle (s : AnimState) : AnimState :=
  let s1 : AnimState :=
    if s.currentDegrees > 360 then { s with currentDegrees := s.currentDegrees - 360 }
    else s
  { s1 with currentDegrees := s1.currentDegrees + angleIncrement }

/-- Lines 289-301: flip the scale direction when the scale is past the bound it
is moving towards, then move the scale one step. -/
def stepScale (s : AnimState) : AnimState :=
  let s1 : AnimState :=
    if (s.currentScale > maxScale && s.isIncreasing)
        || (s.currentScale < minScale && !s.isIncreasing) then
      { s with isIncreasing := !s.isIncreasing }
    else s
  if s1.isIncreasing then { s1 with currentScale := s1.currentScale + scaleIncrement }
  else { s1 with currentScale := s1.currentScale - scaleIncrement }

/-- The animation part of one iteration of the render loop, in source order. -/
def advance (s : AnimState) : AnimState :=
  stepScale (stepAngle (stepOffset s))

/-- The animation state after `n` iterations of the render loop. -/
def animAfter : ℕ → AnimState
  | 0 => initAnim
  | n + 1 => advance (animAfter n)

/-! ## Mesh data (main.cpp lines 46-64, 322) -/

/-- The array `indices` of `CreateTriangle`. -/
def indices : List ℕ :=
  [0, 1, 4,
   0, 2, 1,
   0, 3, 2,
   0, 4, 3,
   1, 3, 2,
   1, 4, 3]

/-- The array `vertices` of `CreateTriangle`; every entry is exactly
representable as a `float`. -/
def vertices : List ℚ :=
  [0, 1, 0,
   1 / 2, 0, 1 / 2,
   -1 / 2, 0, 1 / 2,
   -1 / 2, 0, -1 / 2,
   1 / 2, 0, -1 / 2]

/-- The component count passed to `glVertexAttribPointer(0, 3, ...)`. -/
def vertexComponents : ℕ := 3

/-- The index count passed to `glDrawElements(GL_TRIANGLES, 18, ...)`. -/
def drawCount : ℕ := 18

/-- The number of vertices the attribute layout reads from the vertex buffer. -/
def vertexCount : ℕ := vertices.length / vertexComponents

/-- The indices an indexed draw of `drawCount` elements from offset 0 reads. -/
def drawnIndices : List ℕ := indices.take drawCount

/-! ## Graphics backend (main.cpp lines 14, 46-244, 303-330)

The windowing system and the graphics backend are external. They are modelled
as an oracle: a record holding the answer the backend gives at each place where
the program asks it something. Every such place is reached at most once in a
run (the render loop asks nothing but whether to go on), so a record of answers
describes one run of an arbitrary backend. Every call the program makes is
recorded in order, and so is every line it prints. -/

/-- The value of `GL_VERTEX_SHADER` in the OpenGL headers. -/
def GL_VERTEX_SHADER : ℕ := 35633

/-- The value of `GL_FRAGMENT_SHADER` in the OpenGL headers. -/
def GL_FRAGMENT_SHADER : ℕ := 35632

/-- The two buffer binding points the program uses. -/
inductive BufferTarget
  | GL_ARRAY_BUFFER
  | GL_ELEMENT_ARRAY_BUFFER
deriving DecidableEq

/-- The two program parameters the program queries with `glGetProgramiv`. -/
inductive ProgramParam
  | GL_LINK_STATUS
  | GL_VALIDATE_STATUS
deriving DecidableEq

/-- The data handed to `glBufferData`. -/
inductive BufferPayload
  | indexData (data : List ℕ)
  | vertexData (data : List ℚ)
deriving DecidableEq

/-- The window hints set by `main` (lines 194-203), each with its value. -/
inductive WindowHint
  | GLFW_CONTEXT_VERSION_MAJOR (value : ℕ)
  | GLFW_CONTEXT_VERSION_MINOR (value : ℕ)
  | GLFW_OPENGL_PROFILE_CORE
  | GLFW_OPENGL_FORWARD_COMPAT_TRUE
deriving DecidableEq

/-- The matrices uploaded every frame, kept symbolic: the inputs from which the
math library builds them (lines 246, 311-314). -/
inductive Mat4
  | model (triOffset currentDegrees : ℚ)
  | projection (bufferWidth bufferHeight : ℤ)
deriving DecidableEq

/-- The calls the program makes to the windowing system and the graphics
backend, with the arguments that vary. -/
inductive GLCall
  | glfwInit
  | glfwTerminate
  | glfwWindowHint (hint : WindowHint)
  | glfwCreateWindow (width height : ℕ)
  | glfwGetFramebufferSize
  | glfwMakeContextCurrent
  | glfwDestroyWindow
  | glewInit
  | glEnableDepthTest
  | glViewport (x y width height : ℤ)
  | glGenBuffers
  | glGenVertexArrays
  | glBindBuffer (target : BufferTarget) (buffer : ℕ)
  | glBufferData (target : BufferTarget) (size : ℕ) (data : BufferPayload)
  | glBindVertexArray (array : ℕ)
  | glVertexAttribPointer (index size : ℕ)
  | glEnableVertexAttribArray (index : ℕ)
  | glCreateProgram
  | glCreateShader (shaderType : ℕ)
  | glShaderSource (shader : ℕ) (code : String) (length : ℕ)
  | glCompileShader (shader : ℕ)
  | glGetShaderivCompileStatus (shader : ℕ)
  | glGetShaderInfoLog (shader : ℕ) (bufSize : ℕ)
  | glAttachShader (program shader : ℕ)
  | glLinkProgram (program : ℕ)
  | glGetProgramiv (program : ℕ) (pname : ProgramParam)
  | glGetProgramInfoLog (program : ℕ) (bufSize : ℕ)
  | glValidateProgram (program : ℕ)
  | glGetUniformLocation (program : ℕ) (name : String)
  | glfwWindowShouldClose
  | glfwPollEvents
  | glClearColor
  | glClearColorAndDepth
  | glUseProgram (program : ℕ)
  | glUniformMatrix4fv (location : ℤ) (value : Mat4)
  | glDrawElementsTriangles (count : ℕ)
  | glfwSwapBuffers
deriving DecidableEq

/-- The lines the program prints with `printf`, with the values formatted into
them. -/
inductive Printed
  | glfwInitFailed
  | windowCreationFailed
  | glewInitFailed
  | errorCreatingProgram
  | errorCompiling (shaderType : ℕ) (eLog : String)
  | errorLinking (eLog : String)
  | errorValidating (eLog : String)
deriving DecidableEq

/-- The answers of the windowing system and of the graphics backend. -/
structure Backend where
  /-- Whether `glfwInit()` reports success. -/
  glfwInit : Bool
  /-- Whether `glfwCreateWindow` returns a window (a non-null pointer). -/
  glfwCreateWindow : Bool
  /-- The width written by `glfwGetFramebufferSize`. -/
  bufferWidth : ℤ
  /-- The height written by `glfwGetFramebufferSize`. -/
  bufferHeight : ℤ
  /-- Whether `glewInit()` returns `GLEW_OK`. -/
  glewInit : Bool
  /-- The name written by `glGenBuffers(1, &IBO)`. -/
  genIBO : ℕ
  /-- The name written by `glGenVertexArrays(1, &VAO)`. -/
  genVAO : ℕ
  /-- The name written by `glGenBuffers(1, &VBO)`. -/
  genVBO : ℕ
  /-- The handle returned by `glCreateProgram()`. -/
  glCreateProgram : ℕ
  /-- The handle returned by `glCreateShader(shaderType)`. -/
  glCreateShader : ℕ → ℕ
  /-- The compile status reported for the stage of the given type. -/
  compileStatus : ℕ → Bool
  /-- The compile log of the stage of the given type. -/
  shaderInfoLog : ℕ → String
  /-- The link status reported for the program. -/
  linkStatus : Bool
  /-- The validate status reported for the program. -/
  validateStatus : Bool
  /-- The program log after linking. -/
  linkInfoLog : String
  /-- The program log after validation. -/
  validateInfoLog : String
  /-- The location returned by `glGetUniformLocation(shader, name)`. -/
  glGetUniformLocation : String → ℤ

/-- The state of the program as seen from outside: the global handles of line
14, the calls made so far, and the lines printed so far. -/
structure World where
  VAO : ℕ
  VBO : ℕ
  IBO : ℕ
  shader : ℕ
  uniformModel : ℕ
  uniformProjection : ℕ
  calls : List GLCall
  out : List Printed

/-- The state at program start: the globals are zero-initialised. -/
def initWorld : World :=
  { VAO := 0, VBO := 0, IBO := 0, shader := 0, uniformModel := 0, uniformProjection := 0
    calls := [], out := [] }

/-- Record a call. -/
def World.call (w : World) (c : GLCall) : World :=
  { w with calls := w.calls ++ [c] }

/-- Record a printed line. -/
def World.printf (w : World) (p : Printed) : World :=
  { w with out := w.out ++ [p] }

/-- The calls made between two states of one run. -/
def issued (before after : World) : List GLCall :=
  after.calls.drop before.calls.length

/-- Conversion of a `GLint` to the `GLuint` variable it is stored in. -/
def toGLuint (x : ℤ) : ℕ := (x % 2 ^ 32).toNat

/-- Conversion of a `GLuint` variable to the `GLint` parameter it is passed as. -/
def toGLint (x : ℕ) : ℤ :=
  if x % 2 ^ 32 < 2 ^ 31 then ((x % 2 ^ 32 : ℕ) : ℤ) else ((x % 2 ^ 32 : ℕ) : ℤ) - 2 ^ 32

/-- The size of the log buffer `GLchar eLog[1024]`. -/
def eLogSize : ℕ := 1024

/-- What a log query leaves in a buffer of `eLogSize` bytes: at most
`eLogSize - 1` characters before the terminator. -/
def fillLog (log : String) : String := log.take (eLogSize - 1)

/-- The size in bytes of an `unsigned int` and of a `GLfloat`. -/
def wordSize : ℕ := 4

/-- The vertex shader source of lines 17-31. -/
def vShader : String :=
  "\t\t\t\t\t\t\t\t\t\t\t\t\t\n" ++
  "#version 330\t\t\t\t\t\t\t\t\t\t\t\t\t\t\t\t\t\n" ++
  "\t\t\t\t\t\t\t\t\t\t\t\t\t\t\t\t\t\t\t\t\n" ++
  "layout (location = 0) in vec3 pos;\t\t\t\t\t\t\t\t\t\t\t\t\n" ++
  "\t\t\t\t\t\t\t\t\t\t\t\t\t\t\t\t\t\t\t\t\n" ++
  "out vec4 vecColor;\t\t\t\t\t\t\t\t\t\t\t\t\t\t\t\t\n" ++
  "\t\t\t\t\t\t\t\t\t\t\t\t\t\t\t\t\t\t\t\t\n" ++
  "uniform mat4 model;\t\t\t\t\t\t\t\t\t\t\t\t\t\t\t\t\n" ++
  "uniform mat4 projection;\t\t\t\t\t\t\t\t\t\t\t\t\t\t\n" ++
  "\t\t\t\t\t\t\t\t\t\t\t\t\t\t\t\t\t\t\t\t\n" ++
  "void main ()\t\t\t\t\t\t\t\t\t\t\t\t\t\t\t\t\t\n" ++
  "\x7b\t\t\t\t\t\t\t\t\t\t\t\t\t\t\t\t\t\t\t\t\n" ++
  "\tgl_Position = projection * model * vec4(pos.x, pos.y, pos.z, 1.0);\t\t\t\n" ++
  "\tvecColor = vec4(clamp(pos, 0, 1), 1.0);\t\t\t\t\t\t\t\t\t\t\n" ++
  "\x7d"

/-- The fragment shader source of lines 35-44. -/
def fShader : String :=
  "\t\t\t\t\t\t\t\t\t\t\t\n" ++
  "#version 330\t\t\t\t\t\t\t\t\t\t\t\t\t\t\t\n" ++
  "\t\t\t\t\t\t\t\t\t\t\t\t\t\t\t\t\t\t\n" ++
  "in vec4 vecColor;\t\t\t\t\t\t\t\t\t\t\t\t\t\t\n" ++
  "out vec4 colour;\t\t\t\t\t\t\t\t\t\t\t\t\t\t\n" ++
  "\t\t\t\t\t\t\t\t\t\t\t\t\t\t\t\t\t\t\n" ++
  "void main ()\t\t\t\t\t\t\t\t\t\t\t\t\t\t\t\n" ++
  "\x7b\t\t\t\t\t\t\t\t\t\t\t\t\t\t\t\t\t\t\n" ++
  "\tcolour = vecColor;\t\t\t\t\t\t\t\t\t\t\t\t\t\n" ++
  "\x7d"

/-- The function `CreateTriangle` (lines 46-104). -/
def CreateTriangle (b : Backend) (w : World) : World :=
  let w := { w.call .glGenBuffers with IBO := b.genIBO }
  let w := w.call (.glBindBuffer .GL_ELEMENT_ARRAY_BUFFER w.IBO)
  let w := w.call (.glBufferData .GL_ELEMENT_ARRAY_BUFFER (wordSize * indices.length)
    (.indexData indices))
  let w := { w.call .glGenVertexArrays with VAO := b.genVAO }
  let w := w.call (.glBindVertexArray w.VAO)
  let w := { w.call .glGenBuffers with VBO := b.genVBO }
  let w := w.call (.glBindBuffer .GL_ARRAY_BUFFER w.VBO)
  let w := w.call (.glBufferData .GL_ARRAY_BUFFER (wordSize * vertices.length)
    (.vertexData vertices))
  let w := w.call (.glVertexAttribPointer 0 vertexComponents)
  let w := w.call (.glEnableVertexAttribArray 0)
  let w := w.call (.glBindBuffer .GL_ARRAY_BUFFER 0)
  let w := w.call (.glBindBuffer .GL_ELEMENT_ARRAY_BUFFER 0)
  w.call (.glBindVertexArray 0)

/-- The function `AddShader` (lines 106-138). -/
def AddShader (b : Backend) (w : World) (theProgram : ℕ) (shaderCode : String)
    (shaderType : ℕ) : World :=
  let theShader := b.glCreateShader shaderType
  let w := w.call (.glCreateShader shaderType)
  let w := w.call (.glShaderSource theShader shaderCode shaderCode.length)
  let w := w.call (.glCompileShader theShader)
  let result := b.compileStatus shaderType
  let w := w.call (.glGetShaderivCompileStatus theShader)
  if !result then
    let eLog := fillLog (b.shaderInfoLog shaderType)
    let w := w.call (.glGetShaderInfoLog theShader eLogSize)
    w.printf (.errorCompiling shaderType eLog)
  else
    w.call (.glAttachShader theProgram theShader)

/-- The function `CompileShaders` (lines 140-181). -/
def CompileShaders (b : Backend) (w : World) : World :=
  let w := { w.call .glCreateProgram with shader := b.glCreateProgram }
  if w.shader = 0 then
    w.printf .errorCreatingProgram
  else
    let w := AddShader b w w.shader vShader GL_VERTEX_SHADER
    let w := AddShader b w w.shader fShader GL_FRAGMENT_SHADER
    let w := w.call (.glLinkProgram w.shader)
    let result := b.linkStatus
    let w := w.call (.glGetProgramiv w.shader .GL_LINK_STATUS)
    if !result then
      let eLog := fillLog b.linkInfoLog
      let w := w.call (.glGetProgramInfoLog w.shader eLogSize)
      w.printf (.errorLinking eLog)
    else
      let w := w.call (.glValidateProgram w.shader)
      let result := b.validateStatus
      let w := w.call (.glGetProgramiv w.shader .GL_VALIDATE_STATUS)
      if !result then
        let eLog := fillLog b.validateInfoLog
        let w := w.call (.glGetProgramInfoLog w.shader eLogSize)
        w.printf (.errorValidating eLog)
      else
        let w := { w.call (.glGetUniformLocation w.shader "model") with
          uniformModel := toGLuint (b.glGetUniformLocation "model") }
        { w.call (.glGetUniformLocation w.shader "projection") with
          uniformProjection := toGLuint (b.glGetUniformLocation "projection") }

/-- The state of the render loop: the outside world, the animation variables
and the projection matrix computed once before the loop. -/
structure LoopState where
  world : World
  anim : AnimState
  projection : Mat4

/-- One iteration of the render loop (lines 264-331), entered after
`glfwWindowShouldClose` has answered false. -/
def renderFrame (st : LoopState) : LoopState :=
  let w := st.world.call .glfwWindowShouldClose
  let w := w.call .glfwPollEvents
  let anim := advance st.anim
  let w := w.call .glClearColor
  let w := w.call .glClearColorAndDepth
  let w := w.call (.glUseProgram w.shader)
  let model := Mat4.model anim.triOffset anim.currentDegrees
  let w := w.call (.glUniformMatrix4fv (toGLint w.uniformModel) model)
  let w := w.call (.glUniformMatrix4fv (toGLint w.uniformProjection) st.projection)
  let w := w.call (.glBindVertexArray w.VAO)
  let w := w.call (.glBindBuffer .GL_ELEMENT_ARRAY_BUFFER w.IBO)
  let w := w.call (.glDrawElementsTriangles drawCount)
  let w := w.call (.glBindBuffer .GL_ELEMENT_ARRAY_BUFFER 0)
  let w := w.call (.glBindVertexArray 0)
  let w := w.call (.glUseProgram 0)
  let w := w.call .glfwSwapBuffers
  { world := w, anim := anim, projection := st.projection }

/-- The render loop run for `frames` iterations. -/
def renderLoop : ℕ → LoopState → LoopState
  | 0, st => st
  | n + 1, st => renderFrame (renderLoop n st)

/-- The window size constants `WIDTH` and `HEIGHT` of line 12. -/
def WIDTH : ℕ := 800

/-- The constant `HEIGHT` of line 12. -/
def HEIGHT : ℕ := 600

/-- The setup part of `main` (lines 185-246) when no initialisation step fails:
the state in which the render loop is entered. The failure of an
initialisation step gives the exit status instead. -/
def mainSetup (b : Backend) : Except (World × ℤ) LoopState :=
  let w := initWorld.call .glfwInit
  if !b.glfwInit then
    .error ((w.printf .glfwInitFailed).call .glfwTerminate, 1)
  else
    let w := w.call (.glfwWindowHint (.GLFW_CONTEXT_VERSION_MAJOR 3))
    let w := w.call (.glfwWindowHint (.GLFW_CONTEXT_VERSION_MINOR 3))
    let w := w.call (.glfwWindowHint .GLFW_OPENGL_PROFILE_CORE)
    let w := w.call (.glfwWindowHint .GLFW_OPENGL_FORWARD_COMPAT_TRUE)
    let w := w.call (.glfwCreateWindow WIDTH HEIGHT)
    if !b.glfwCreateWindow then
      .error ((w.printf .windowCreationFailed).call .glfwTerminate, 1)
    else
      let w := w.call .glfwGetFramebufferSize
      let w := w.call .glfwMakeContextCurrent
      let w := w.call .glewInit
      if !b.glewInit then
        .error (((w.printf .glewInitFailed).call .glfwDestroyWindow).call .glfwTerminate, 1)
      else
        let w := w.call .glEnableDepthTest
        let w := w.call (.glViewport 0 0 b.bufferWidth b.bufferHeight)
        let w := CreateTriangle b w
        let w := CompileShaders b w
        .ok { world := w, anim := initAnim
              projection := .projection b.bufferWidth b.bufferHeight }

/-- The function `main` (lines 183-334) in a run in which
`glfwWindowShouldClose` answers false `frames` times and then true: the final
state of the outside world and the exit status. -/
def main (b : Backend) (frames : ℕ) : World × ℤ :=
  match mainSetup b with
  | .error r => r
  | .ok st => ((renderLoop frames st).world.call .glfwWindowShouldClose, 0)

/-- A backend in which every initialisation step succeeds and the program and
both stages are created, with the given answers to the four status queries. -/
def statusBackend (vertexOk fragmentOk linkOk validateOk : Bool) : Backend :=
  { glfwInit := true
    glfwCreateWindow := true
    bufferWidth := 800
    bufferHeight := 600
    glewInit := true
    genIBO := 1
    genVAO := 1
    genVBO := 2
    glCreateProgram := 3
    glCreateShader := fun shaderType => if shaderType = GL_VERTEX_SHADER then 1 else 2
    compileStatus := fun shaderType =>
      if shaderType = GL_VERTEX_SHADER then vertexOk else fragmentOk
    shaderInfoLog := fun _ => "syntax error"
    linkStatus := linkOk
    validateStatus := validateOk
    linkInfoLog := "link error"
    validateInfoLog := "validate error"
    glGetUniformLocation := fun name =>
      if name = "model" then 0 else if name = "projection" then 1 else -1 }

/-- The calls of one iteration of the render loop, given the globals, the
matrices uploaded and nothing else. -/
def frameCalls (w : World) (model projection : Mat4) : List GLCall :=
  [.glfwWindowShouldClose, .glfwPollEvents, .glClearColor, .glClearColorAndDepth,
   .glUseProgram w.shader,
   .glUniformMatrix4fv (toGLint w.uniformModel) model,
   .glUniformMatrix4fv (toGLint w.uniformProjection) projection,
   .glBindVertexArray w.VAO,
   .glBindBuffer .GL_ELEMENT_ARRAY_BUFFER w.IBO,
   .glDrawElementsTriangles 18,
   .glBindBuffer .GL_ELEMENT_ARRAY_BUFFER 0,
   .glBindVertexArray 0,
   .glUseProgram 0,
   .glfwSwapBuffers]

/-- The offset invariant of the loop: while moving forward the offset has not
yet passed the upper bound, while moving backward it has not yet passed the
lower bound, and it is never more than one step outside. -/
def OffsetInv (s : AnimState) : Prop :=
  (s.direction = true → -(39 / 40) ≤ s.triOffset ∧ s.triOffset ≤ 19 / 20) ∧
    (s.direction = false → -(19 / 20) ≤ s.triOffset ∧ s.triOffset ≤ 39 / 40)

/-- The scale invariant of the loop: the scale is at most one step past the
bound it is moving towards and not past the bound it is moving away from. -/
def ScaleInv (s : AnimState) : Prop :=
  (s.isIncreasing = true → 1 / 10 ≤ s.currentScale ∧ s.currentScale ≤ 101 / 100) ∧
    (s.isIncreasing = false → 9 / 100 ≤ s.currentScale ∧ s.currentScale ≤ 1)

/-! ## Field projections of one loop iteration -/

theorem stepOffset_proj (s : AnimState) :
    (stepOffset s).currentDegrees = s.currentDegrees ∧
      (stepOffset s).currentScale = s.currentScale ∧
      (stepOffset s).isIncreasing = s.isIncreasing := by
  simp only [stepOffset]
  split_ifs <;> exact ⟨rfl, rfl, rfl⟩

theorem stepAngle_proj (s : AnimState) :
    (stepAngle s).direction = s.direction ∧
      (stepAngle s).triOffset = s.triOffset ∧
      (stepAngle s).currentScale = s.currentScale ∧
      (stepAngle s).isIncreasing = s.isIncreasing := by
  simp only [stepAngle]
  split_ifs <;> exact ⟨rfl, rfl, rfl, rfl⟩

theorem stepAngle_currentDegrees (s : AnimState) :
    (stepAngle s).currentDegrees =
      (if s.currentDegrees > 360 then s.currentDegrees - 360 else s.currentDegrees)
        + angleIncrement := by
  simp only [stepAngle]
  split_ifs <;> rfl

theorem stepScale_proj (s : AnimState) :
    (stepScale s).direction = s.direction ∧
      (stepScale s).triOffset = s.triOffset ∧
      (stepScale s).currentDegrees = s.currentDegrees := by
  simp only [stepScale]
  split_ifs <;> exact ⟨rfl, rfl, rfl⟩

theorem advance_triOffset (s : AnimState) :
    (advance s).triOffset = (stepOffset s).triOffset := by
  rw [advance, (stepScale_proj _).2.1, (stepAngle_proj _).2.1]

theorem advance_direction (s : AnimState) :
    (advance s).direction = (stepOffset s).direction := by
  rw [advance, (stepScale_proj _).1, (stepAngle_proj _).1]

theorem advance_currentDegrees (s : AnimState) :
    (advance s).currentDegrees =
      (if s.currentDegrees > 360 then s.currentDegrees - 360 else s.currentDegrees)
        + angleIncrement := by
  rw [advance, (stepScale_proj _).2.2, stepAngle_currentDegrees, (stepOffset_proj _).1]

theorem advance_scale (s : AnimState) :
    (advance s).currentScale = (stepScale s).currentScale ∧
      (advance s).isIncreasing = (stepScale s).isIncreasing := by
  have h1 := stepOffset_proj s
  have h2 := stepAngle_proj (stepOffset s)
  have e1 : (stepAngle (stepOffset s)).currentScale = s.currentScale := by
    rw [h2.2.2.1, h1.2.1]
  have e2 : (stepAngle (stepOffset s)).isIncreasing = s.isIncreasing := by
    rw [h2.2.2.2, h1.2.2]
  simp only [advance, stepScale, e1, e2]
  split_ifs <;> simp_all

/-! ## Offset oscillator -/

theorem stepOffset_forward (s : AnimState) (hd : s.direction = true) :
    (stepOffset s).triOffset = s.triOffset + triIncrement ∧
      (stepOffset s).direction =
        (if |s.triOffset + triIncrement| > triMaxOffset then false else true) := by
  simp only [stepOffset, hd, if_true]
  split_ifs <;> exact ⟨rfl, rfl⟩

theorem stepOffset_backward (s : AnimState) (hd : s.direction = false) :
    (stepOffset s).triOffset = s.triOffset - triIncrement ∧
      (stepOffset s).direction =
        (if |s.triOffset - triIncrement| > triMaxOffset then true else false) := by
  simp only [stepOffset, hd]
  split_ifs <;> first | exact ⟨rfl, rfl⟩ | simp_all

theorem stepOffset_inv (s : AnimState) (h : OffsetInv s) : OffsetInv (stepOffset s) := by
  obtain ⟨hT, hF⟩ := h
  unfold OffsetInv
  cases hd : s.direction
  · obtain ⟨h1, h2⟩ := hF hd
    obtain ⟨e1, e2⟩ := stepOffset_backward s hd
    rw [e1, e2]
    simp only [triIncrement, triMaxOffset]
    split_ifs with hc
    · rcases lt_abs.mp hc with h3 | h3
      · exfalso; linarith
      · exact ⟨fun _ => ⟨by linarith, by linarith⟩, fun hh => by simp at hh⟩
    · have h3 := abs_le.mp (not_lt.mp hc)
      exact ⟨fun hh => by simp at hh, fun _ => ⟨h3.1, by linarith⟩⟩
  · obtain ⟨h1, h2⟩ := hT hd
    obtain ⟨e1, e2⟩ := stepOffset_forward s hd
    rw [e1, e2]
    simp only [triIncrement, triMaxOffset]
    split_ifs with hc
    · rcases lt_abs.mp hc with h3 | h3
      · exact ⟨fun hh => by simp at hh, fun _ => ⟨by linarith, by linarith⟩⟩
      · exfalso; linarith
    · have h3 := abs_le.mp (not_lt.mp hc)
      exact ⟨fun _ => ⟨by linarith, h3.2⟩, fun hh => by simp at hh⟩

theorem advance_offsetInv (s : AnimState) (h : OffsetInv s) : OffsetInv (advance s) := by
  have h1 := stepOffset_inv s h
  unfold OffsetInv at h1 ⊢
  rw [advance_triOffset, advance_direction]
  exact h1

theorem animAfter_offsetInv (n : ℕ) : OffsetInv (animAfter n) := by
  induction n with
  | zero =>
    refine ⟨fun _ => ?_, fun hh => ?_⟩
    · simp only [animAfter, initAnim]; constructor <;> norm_num
    · simp [animAfter, initAnim] at hh
  | succ k ih => exact advance_offsetInv _ ih

/-- During the first 38 iterations the offset climbs by one step per iteration
and the direction stays forward. -/
theorem offset_climb (n : ℕ) (hn : n ≤ 38) :
    (animAfter n).direction = true ∧ (animAfter n).triOffset = (n : ℚ) / 40 := by
  induction n with
  | zero => simp [animAfter, initAnim]
  | succ k ih =>
    obtain ⟨hd, ho⟩ := ih (by omega)
    have hk : (k : ℚ) ≤ 37 := by exact_mod_cast (by omega : k ≤ 37)
    have hk0 : (0 : ℚ) ≤ k := by positivity
    have hno : ¬ (|(animAfter k).triOffset + triIncrement| > triMaxOffset) := by
      rw [ho, not_lt, abs_le]
      simp only [triIncrement, triMaxOffset]
      constructor <;> linarith
    obtain ⟨e1, e2⟩ := stepOffset_forward _ hd
    simp only [animAfter]
    rw [advance_direction, advance_triOffset, e1, e2, if_neg hno, ho]
    refine ⟨rfl, ?_⟩
    simp only [triIncrement]
    push_cast
    ring

/-! ## Rotation angle -/

theorem angle_range (n : ℕ) :
    0 ≤ (animAfter n).currentDegrees ∧
      (animAfter n).currentDegrees ≤ 360 + angleIncrement := by
  induction n with
  | zero => simp only [animAfter, initAnim, angleIncrement]; constructor <;> norm_num
  | succ k ih =>
    obtain ⟨h0, h1⟩ := ih
    simp only [animAfter]
    rw [advance_currentDegrees]
    simp only [angleIncrement] at h1 ⊢
    split_ifs with hc
    · constructor <;> linarith
    · constructor <;> linarith

/-- Up to and including iteration 97 no wrap has happened: the angle is the
plain multiple of the increment. -/
theorem angle_linear (n : ℕ) (hn : n ≤ 97) :
    (animAfter n).currentDegrees = angleIncrement * n := by
  induction n with
  | zero => simp [animAfter, initAnim]
  | succ k ih =>
    have hk := ih (by omega)
    have hk96 : (k : ℚ) ≤ 96 := by exact_mod_cast (by omega : k ≤ 96)
    have hno : ¬ ((animAfter k).currentDegrees > 360) := by
      rw [hk, not_lt]
      simp only [angleIncrement]
      linarith
    simp only [animAfter]
    rw [advance_currentDegrees, if_neg hno, hk]
    push_cast
    ring

/-! ## Scale oscillator -/

theorem stepScale_up (s : AnimState) (hd : s.isIncreasing = true) :
    (stepScale s).currentScale =
        (if s.currentScale > maxScale then s.currentScale - scaleIncrement
          else s.currentScale + scaleIncrement) ∧
      (stepScale s).isIncreasing = (if s.currentScale > maxScale then false else true) := by
  simp only [stepScale, hd]
  split_ifs <;> simp_all

theorem stepScale_down (s : AnimState) (hd : s.isIncreasing = false) :
    (stepScale s).currentScale =
        (if s.currentScale < minScale then s.currentScale + scaleIncrement
          else s.currentScale - scaleIncrement) ∧
      (stepScale s).isIncreasing = (if s.currentScale < minScale then true else false) := by
  simp only [stepScale, hd]
  split_ifs <;> simp_all

theorem stepScale_inv (s : AnimState) (h : ScaleInv s) : ScaleInv (stepScale s) := by
  obtain ⟨hT, hF⟩ := h
  unfold ScaleInv
  cases hd : s.isIncreasing
  · obtain ⟨h1, h2⟩ := hF hd
    obtain ⟨e1, e2⟩ := stepScale_down s hd
    rw [e1, e2]
    simp only [minScale, scaleIncrement]
    split_ifs with hc
    · exact ⟨fun _ => ⟨by linarith, by linarith⟩, fun hh => by simp at hh⟩
    · have h3 := not_lt.mp hc
      exact ⟨fun hh => by simp at hh, fun _ => ⟨by linarith, by linarith⟩⟩
  · obtain ⟨h1, h2⟩ := hT hd
    obtain ⟨e1, e2⟩ := stepScale_up s hd
    rw [e1, e2]
    simp only [maxScale, scaleIncrement]
    split_ifs with hc
    · exact ⟨fun hh => by simp at hh, fun _ => ⟨by linarith, by linarith⟩⟩
    · have h3 := not_lt.mp hc
      exact ⟨fun _ => ⟨by linarith, by linarith⟩, fun hh => by simp at hh⟩

theorem advance_scaleInv (s : AnimState) (h : ScaleInv s) : ScaleInv (advance s) := by
  have h1 := stepScale_inv s h
  unfold ScaleInv at h1 ⊢
  rw [(advance_scale s).1, (advance_scale s).2]
  exact h1

theorem animAfter_scaleInv (n : ℕ) : ScaleInv (animAfter n) := by
  induction n with
  | zero =>
    refine ⟨fun _ => ?_, fun hh => ?_⟩
    · simp only [animAfter, initAnim]; constructor <;> norm_num
    · simp [animAfter, initAnim] at hh
  | succ k ih => exact advance_scaleInv _ ih

/-- During the first 91 iterations the scale climbs by one step per iteration:
the bound check of iteration 91 sees exactly `maxScale`, which is not above
`maxScale`. -/
theorem scale_climb (n : ℕ) (hn : n ≤ 91) :
    (animAfter n).isIncreasing = true ∧
      (animAfter n).currentScale = 1 / 10 + (n : ℚ) / 100 := by
  induction n with
  | zero => simp [animAfter, initAnim]
  | succ k ih =>
    obtain ⟨hd, ho⟩ := ih (by omega)
    have hk : (k : ℚ) ≤ 90 := by exact_mod_cast (by omega : k ≤ 90)
    have hno : ¬ ((animAfter k).currentScale > maxScale) := by
      rw [ho, not_lt]
      simp only [maxScale]
      linarith
    obtain ⟨e1, e2⟩ := stepScale_up _ hd
    simp only [animAfter]
    rw [(advance_scale _).1, (advance_scale _).2, e1, e2, if_neg hno, if_neg hno, ho]
    refine ⟨rfl, ?_⟩
    simp only [scaleIncrement]
    push_cast
    ring

/-- Iteration 92 flips the scale direction, and during the following 91
iterations the scale descends by one step per iteration: the bound check of
iteration 183 sees exactly `minScale`, which is not below `minScale`. -/
theorem scale_descent (k : ℕ) (hk : k ≤ 91) :
    (animAfter (92 + k)).isIncreasing = false ∧
      (animAfter (92 + k)).currentScale = 1 - (k : ℚ) / 100 := by
  induction k with
  | zero =>
    obtain ⟨hd, ho⟩ := scale_climb 91 (le_refl _)
    have hyes : (animAfter 91).currentScale > maxScale := by
      rw [ho]; simp only [maxScale]; norm_num
    obtain ⟨e1, e2⟩ := stepScale_up _ hd
    show (advance (animAfter 91)).isIncreasing = false ∧
      (advance (animAfter 91)).currentScale = 1 - ((0 : ℕ) : ℚ) / 100
    rw [(advance_scale _).1, (advance_scale _).2, e1, e2, if_pos hyes, if_pos hyes, ho]
    refine ⟨rfl, ?_⟩
    simp only [scaleIncrement]
    norm_num
  | succ j ih =>
    obtain ⟨hd, ho⟩ := ih (by omega)
    have hj : (j : ℚ) ≤ 90 := by exact_mod_cast (by omega : j ≤ 90)
    have hno : ¬ ((animAfter (92 + j)).currentScale < minScale) := by
      rw [ho, not_lt]
      simp only [minScale]
      linarith
    obtain ⟨e1, e2⟩ := stepScale_down _ hd
    show (advance (animAfter (92 + j))).isIncreasing = false ∧
      (advance (animAfter (92 + j))).currentScale = 1 - ((j + 1 : ℕ) : ℚ) / 100
    rw [(advance_scale _).1, (advance_scale _).2, e1, e2, if_neg hno, if_neg hno, ho]
    refine ⟨rfl, ?_⟩
    simp only [scaleIncrement]
    push_cast
    ring

/-! ## The render loop and the animation state -/

/-- The animation variables of the render loop evolve by `advance` alone: after
`n` iterations from the initial values they are `animAfter n`. -/
theorem renderLoop_anim (n : ℕ) (st : LoopState) (h : st.anim = initAnim) :
    (renderLoop n st).anim = animAfter n := by
  induction n with
  | zero => simpa [renderLoop, animAfter] using h
  | succ k ih => simp only [renderLoop, renderFrame, animAfter, ih]

/-! ## Claims on the animation state and the mesh -/

/-- C1. Offset oscillator bound: after every number `n` of render-loop
iterations from the initial state, the absolute value of `triOffset` is at most
`triMaxOffset + triIncrement` (which is 0.975). -/
theorem C1_offset_bound (n : ℕ) :
    |(animAfter n).triOffset| ≤ triMaxOffset + triIncrement ∧
      triMaxOffset + triIncrement = 39 / 40 := by
  have h := animAfter_offsetInv n
  have e : triMaxOffset + triIncrement = 39 / 40 := by
    simp only [triMaxOffset, triIncrement]; norm_num
  refine ⟨?_, e⟩
  rw [e, abs_le]
  cases hd : (animAfter n).direction
  · obtain ⟨h1, h2⟩ := h.2 hd
    constructor <;> linarith
  · obtain ⟨h1, h2⟩ := h.1 hd
    constructor <;> linarith

/-- C2. Rotation angle range: after every number `n` of render-loop iterations
from `currentDegrees = 0`, the angle lies in `(-360, 360 + angleIncrement]`, and
when it is above 360 after iteration `n` it is at most 360 after iteration
`n + 1`. -/
theorem C2_angle_range (n : ℕ) :
    -360 < (animAfter n).currentDegrees ∧
      (animAfter n).currentDegrees ≤ 360 + angleIncrement ∧
      ((animAfter n).currentDegrees > 360 → (animAfter (n + 1)).currentDegrees ≤ 360) := by
  obtain ⟨h0, h1⟩ := angle_range n
  refine ⟨by linarith, h1, fun hgt => ?_⟩
  simp only [animAfter]
  rw [advance_currentDegrees, if_pos hgt]
  simp only [angleIncrement] at h1 ⊢
  linarith

/-- C3, as stated, fails: the wrap check of the 97th iteration sees exactly 360,
which is not above 360, so the wrap branch is not taken and the angle after the
97th iteration is 363.75, not 3.75. -/
theorem C3_wrap_not_at_97 :
    (animAfter 96).currentDegrees = 360 ∧
      ¬ ((animAfter 96).currentDegrees > 360) ∧
      (animAfter 97).currentDegrees = 1455 / 4 ∧
      (animAfter 97).currentDegrees ≠ angleIncrement := by
  have h96 := angle_linear 96 (by norm_num)
  have h97 := angle_linear 97 (by norm_num)
  simp only [angleIncrement] at h96 h97 ⊢
  rw [h96, h97]
  norm_num

/-- C3, amended. The wrap check of the 97th iteration sees 3.75 x 96 = 360; no
wrap check of the iterations 1 to 97 sees a value above 360, so the angle after
the 97th iteration is 360 + 3.75. The wrap branch is first taken in the 98th
iteration: 360 is subtracted before the 98th increment is added, and the angle
after the 98th iteration is 7.5. -/
theorem C3_wrap_at_98 :
    (animAfter 96).currentDegrees = angleIncrement * 96 ∧
      angleIncrement * 96 = 360 ∧
      (∀ n : ℕ, n < 97 → ¬ ((animAfter n).currentDegrees > 360)) ∧
      (animAfter 97).currentDegrees = 360 + angleIncrement ∧
      (animAfter 97).currentDegrees > 360 ∧
      (animAfter 98).currentDegrees = (animAfter 97).currentDegrees - 360 + angleIncrement ∧
      (animAfter 98).currentDegrees = 15 / 2 := by
  have h96 := angle_linear 96 (by norm_num)
  have h97 := angle_linear 97 (by norm_num)
  have hgt : (animAfter 97).currentDegrees > 360 := by
    rw [h97]; simp only [angleIncrement]; norm_num
  have h98 : (animAfter 98).currentDegrees =
      (animAfter 97).currentDegrees - 360 + angleIncrement := by
    show (advance (animAfter 97)).currentDegrees = _
    rw [advance_currentDegrees, if_pos hgt]
  refine ⟨by rw [h96]; norm_num, by simp only [angleIncrement]; norm_num, ?_, ?_, hgt, h98, ?_⟩
  · intro n hn
    rw [angle_linear n (by omega), not_lt]
    have hk : (n : ℚ) ≤ 96 := by exact_mod_cast (by omega : n ≤ 96)
    simp only [angleIncrement]
    linarith
  · rw [h97]; simp only [angleIncrement]; norm_num
  · rw [h98, h97]; simp only [angleIncrement]; norm_num

/-- C4. Scenario 1: after each of the first 38 iterations the direction is still
forward, after 38 iterations `triOffset` equals 0.95 (which is `triMaxOffset`),
and the direction first changes during the 39th iteration. -/
theorem C4_offset_bounce :
    (∀ n : ℕ, n ≤ 38 → (animAfter n).direction = true) ∧
      (animAfter 38).triOffset = 19 / 20 ∧
      (animAfter 38).triOffset = triMaxOffset ∧
      (animAfter 39).direction = false := by
  obtain ⟨hd, ho⟩ := offset_climb 38 (le_refl _)
  have ho2 : (animAfter 38).triOffset = 19 / 20 := by rw [ho]; norm_num
  refine ⟨fun n hn => (offset_climb n hn).1, ho2, by rw [ho2]; rfl, ?_⟩
  have hyes : |(animAfter 38).triOffset + triIncrement| > triMaxOffset := by
    rw [ho2]
    simp only [triIncrement, triMaxOffset]
    rw [abs_of_pos (by norm_num)]
    norm_num
  show (advance (animAfter 38)).direction = false
  rw [advance_direction, (stepOffset_forward _ hd).2, if_pos hyes]

/-- C5, as stated, fails: the bound check of iteration 91 sees exactly
`maxScale`, which is not above it, so the scale is stepped to 1.01; in the same
way it is stepped down to 0.09 in iteration 183. -/
theorem C5_scale_leaves_range :
    (animAfter 91).currentScale = 101 / 100 ∧
      ¬ ((animAfter 91).currentScale ≤ maxScale) ∧
      (animAfter 183).currentScale = 9 / 100 ∧
      ¬ (minScale ≤ (animAfter 183).currentScale) := by
  have h91 := (scale_climb 91 (le_refl _)).2
  have h183 := (scale_descent 91 (le_refl _)).2
  have e91 : (animAfter 91).currentScale = 101 / 100 := by rw [h91]; norm_num
  have e183 : (animAfter 183).currentScale = 9 / 100 := by
    show (animAfter (92 + 91)).currentScale = 9 / 100
    rw [h183]; norm_num
  refine ⟨e91, ?_, e183, ?_⟩
  · rw [e91]; simp only [maxScale]; norm_num
  · rw [e183]; simp only [minScale]; norm_num

/-- C5, amended. After every number `n` of render-loop iterations from the
initial state, `currentScale` lies in the closed range
`[minScale - scaleIncrement, maxScale + scaleIncrement]`, which is
`[0.09, 1.01]`. -/
theorem C5_scale_range (n : ℕ) :
    minScale - scaleIncrement ≤ (animAfter n).currentScale ∧
      (animAfter n).currentScale ≤ maxScale + scaleIncrement := by
  have h := animAfter_scaleInv n
  simp only [minScale, maxScale, scaleIncrement]
  cases hd : (animAfter n).isIncreasing
  · obtain ⟨h1, h2⟩ := h.2 hd
    constructor <;> linarith
  · obtain ⟨h1, h2⟩ := h.1 hd
    constructor <;> linarith

/-- C9. The indexed draw is in bounds: `CreateTriangle` uploads the 18 entries
of `indices` (6 triples) and the 15 floats of `vertices` (5 vertices of 3
components), every frame draws exactly 18 indices, which is the length of
`indices`, and every index the draw reads is below the vertex count 5. -/
theorem C9_draw_in_bounds (b : Backend) (w : World) (st : LoopState) :
    GLCall.glBufferData .GL_ELEMENT_ARRAY_BUFFER (wordSize * indices.length)
        (.indexData indices) ∈ (CreateTriangle b w).calls ∧
      GLCall.glBufferData .GL_ARRAY_BUFFER (wordSize * vertices.length)
        (.vertexData vertices) ∈ (CreateTriangle b w).calls ∧
      GLCall.glVertexAttribPointer 0 vertexComponents ∈ (CreateTriangle b w).calls ∧
      GLCall.glDrawElementsTriangles drawCount ∈ (renderFrame st).world.calls ∧
      drawCount = 18 ∧
      indices.length / 3 = 6 ∧
      drawCount = 3 * (indices.length / 3) ∧
      drawCount = indices.length ∧
      vertices.length = 15 ∧
      vertexCount = 5 ∧
      ∀ i ∈ drawnIndices, i < vertexCount := by
  refine ⟨?_, ?_, ?_, ?_, rfl, rfl, rfl, rfl, rfl, rfl, ?_⟩
  · simp [CreateTriangle, World.call]
  · simp [CreateTriangle, World.call]
  · simp [CreateTriangle, World.call]
  · simp [renderFrame, World.call]
  · decide

/-- C10. The wrap only ever subtracts whole periods: for every `n` the angle
after `n` render-loop iterations equals `3.75 * n - 360 * k` for some natural
number `k`. -/
theorem C10_angle_mod_period (n : ℕ) :
    ∃ k : ℕ, (animAfter n).currentDegrees = angleIncrement * n - 360 * k := by
  induction n with
  | zero => exact ⟨0, by simp [animAfter, initAnim]⟩
  | succ j ih =>
    obtain ⟨k, hk⟩ := ih
    simp only [animAfter]
    rw [advance_currentDegrees]
    split_ifs with hc
    · exact ⟨k + 1, by rw [hk]; push_cast; ring⟩
    · exact ⟨k, by rw [hk]; push_cast; ring⟩

/-! ## Shader pipeline -/

theorem issued_of_append (w r : World) (t : List GLCall) (h : r.calls = w.calls ++ t) :
    issued w r = t := by
  simp [issued, h]

/-- The calls and the output of `AddShader` for a stage that fails to compile:
the log is fetched and printed and nothing is attached. -/
theorem AddShader_failed (b : Backend) (w : World) (theProgram : ℕ) (shaderCode : String)
    (shaderType : ℕ) (h : b.compileStatus shaderType = false) :
    AddShader b w theProgram shaderCode shaderType =
      { w with
        calls := w.calls ++
          [.glCreateShader shaderType,
           .glShaderSource (b.glCreateShader shaderType) shaderCode shaderCode.length,
           .glCompileShader (b.glCreateShader shaderType),
           .glGetShaderivCompileStatus (b.glCreateShader shaderType),
           .glGetShaderInfoLog (b.glCreateShader shaderType) eLogSize]
        out := w.out ++ [.errorCompiling shaderType (fillLog (b.shaderInfoLog shaderType))] } := by
  simp [AddShader, World.call, World.printf, h]

/-- The calls of `AddShader` for a stage that compiles: the stage is attached
and nothing is printed. -/
theorem AddShader_compiled (b : Backend) (w : World) (theProgram : ℕ) (shaderCode : String)
    (shaderType : ℕ) (h : b.compileStatus shaderType = true) :
    AddShader b w theProgram shaderCode shaderType =
      { w with
        calls := w.calls ++
          [.glCreateShader shaderType,
           .glShaderSource (b.glCreateShader shaderType) shaderCode shaderCode.length,
           .glCompileShader (b.glCreateShader shaderType),
           .glGetShaderivCompileStatus (b.glCreateShader shaderType),
           .glAttachShader theProgram (b.glCreateShader shaderType)] } := by
  simp [AddShader, World.call, h]

/-- C6, as stated, fails: with a vertex stage (or a fragment stage) that does
not compile, `CompileShaders` still calls `glLinkProgram` on the program; and
when the backend then answers the link and validate queries with true, the
uniform locations are resolved as well. -/
theorem C6_link_after_failed_compile :
    (statusBackend false true false true).compileStatus GL_VERTEX_SHADER = false ∧
      GLCall.glLinkProgram 3 ∈
        issued initWorld (CompileShaders (statusBackend false true false true) initWorld) ∧
      (statusBackend true false false true).compileStatus GL_FRAGMENT_SHADER = false ∧
      GLCall.glLinkProgram 3 ∈
        issued initWorld (CompileShaders (statusBackend true false false true) initWorld) ∧
      (statusBackend false true true true).compileStatus GL_VERTEX_SHADER = false ∧
      GLCall.glGetUniformLocation 3 "model" ∈
        issued initWorld (CompileShaders (statusBackend false true true true) initWorld) := by
  refine ⟨rfl, ?_, rfl, ?_, rfl, ?_⟩ <;>
    simp [issued, CompileShaders, AddShader, World.call, World.printf, statusBackend,
      initWorld, GL_VERTEX_SHADER, GL_FRAGMENT_SHADER]

/-- C6, amended. A stage whose compile-status query answers false has its
diagnostic printed and is not attached (`AddShader` makes no `glAttachShader`
call), but `CompileShaders` goes on: whenever program creation succeeds it
calls `glLinkProgram` on the program, and it resolves the uniform locations
exactly when the link-status and validate-status queries both answer true. -/
theorem C6_compile_failure_goes_on (b : Backend) (w : World) (hp : b.glCreateProgram ≠ 0) :
    (∀ (shaderType theProgram : ℕ) (shaderCode : String) (w0 : World),
        b.compileStatus shaderType = false →
          issued w0 (AddShader b w0 theProgram shaderCode shaderType) =
            [.glCreateShader shaderType,
             .glShaderSource (b.glCreateShader shaderType) shaderCode shaderCode.length,
             .glCompileShader (b.glCreateShader shaderType),
             .glGetShaderivCompileStatus (b.glCreateShader shaderType),
             .glGetShaderInfoLog (b.glCreateShader shaderType) eLogSize]) ∧
      (b.compileStatus GL_VERTEX_SHADER = false →
        Printed.errorCompiling GL_VERTEX_SHADER (fillLog (b.shaderInfoLog GL_VERTEX_SHADER))
          ∈ (CompileShaders b w).out) ∧
      (b.compileStatus GL_FRAGMENT_SHADER = false →
        Printed.errorCompiling GL_FRAGMENT_SHADER (fillLog (b.shaderInfoLog GL_FRAGMENT_SHADER))
          ∈ (CompileShaders b w).out) ∧
      GLCall.glLinkProgram b.glCreateProgram ∈ issued w (CompileShaders b w) ∧
      (GLCall.glGetUniformLocation b.glCreateProgram "model" ∈ issued w (CompileShaders b w) ↔
        b.linkStatus = true ∧ b.validateStatus = true) ∧
      (GLCall.glGetUniformLocation b.glCreateProgram "projection"
          ∈ issued w (CompileShaders b w) ↔
        b.linkStatus = true ∧ b.validateStatus = true) := by
  refine ⟨?_, ?_, ?_, ?_, ?_, ?_⟩
  · intro shaderType theProgram shaderCode w0 h
    rw [AddShader_failed b w0 theProgram shaderCode shaderType h]
    exact issued_of_append _ _ _ rfl
  all_goals
    cases hv : b.compileStatus GL_VERTEX_SHADER <;>
    cases hf : b.compileStatus GL_FRAGMENT_SHADER <;>
    cases hl : b.linkStatus <;>
    cases hva : b.validateStatus <;>
    simp [issued, CompileShaders, AddShader, World.call, World.printf, hp, hv, hf, hl, hva]

/-- The hypothesis of C6 (amended) holds at a backend whose vertex stage does
not compile and whose link fails. -/
theorem C6_compile_failure_goes_on_witness :
    (statusBackend false true false true).glCreateProgram ≠ 0 ∧
      GLCall.glLinkProgram (statusBackend false true false true).glCreateProgram ∈
        issued initWorld (CompileShaders (statusBackend false true false true) initWorld) :=
  ⟨by decide,
    (C6_compile_failure_goes_on (statusBackend false true false true) initWorld
      (by decide)).2.2.2.1⟩

/-- C8, as stated, fails: when both stages compile, the link succeeds and the
validate-status query answers false, `CompileShaders` returns before it
resolves the uniform locations, and `uniformModel` and `uniformProjection` keep
their old values; when the query answers true the locations are resolved. -/
theorem C8_validation_failure_returns_early :
    (statusBackend true true true false).compileStatus GL_VERTEX_SHADER = true ∧
      (statusBackend true true true false).compileStatus GL_FRAGMENT_SHADER = true ∧
      (statusBackend true true true false).linkStatus = true ∧
      (statusBackend true true true false).validateStatus = false ∧
      GLCall.glGetUniformLocation 3 "model" ∉
        (CompileShaders (statusBackend true true true false) initWorld).calls ∧
      GLCall.glGetUniformLocation 3 "projection" ∉
        (CompileShaders (statusBackend true true true false) initWorld).calls ∧
      (CompileShaders (statusBackend true true true false) initWorld).uniformProjection = 0 ∧
      GLCall.glGetUniformLocation 3 "model" ∈
        (CompileShaders (statusBackend true true true true) initWorld).calls ∧
      GLCall.glGetUniformLocation 3 "projection" ∈
        (CompileShaders (statusBackend true true true true) initWorld).calls ∧
      (CompileShaders (statusBackend true true true true) initWorld).uniformProjection = 1 := by
  refine ⟨rfl, rfl, rfl, rfl, ?_, ?_, ?_, ?_, ?_, ?_⟩ <;>
    simp [CompileShaders, AddShader, World.call, World.printf, statusBackend,
      initWorld, GL_VERTEX_SHADER, GL_FRAGMENT_SHADER, toGLuint]

/-- C8, amended. When program creation, both compilations and the link succeed,
`CompileShaders` resolves the two uniform locations if the validate-status
query answers true; if it answers false, `CompileShaders` fetches and prints the
validation diagnostic and returns without resolving them, leaving
`uniformModel` and `uniformProjection` as they were. -/
theorem C8_validation_gates_uniforms (b : Backend) (w : World)
    (hp : b.glCreateProgram ≠ 0)
    (hv : b.compileStatus GL_VERTEX_SHADER = true)
    (hf : b.compileStatus GL_FRAGMENT_SHADER = true)
    (hl : b.linkStatus = true) :
    (b.validateStatus = true →
        CompileShaders b w =
          { w with
            shader := b.glCreateProgram
            uniformModel := toGLuint (b.glGetUniformLocation "model")
            uniformProjection := toGLuint (b.glGetUniformLocation "projection")
            calls := w.calls ++
              [.glCreateProgram,
               .glCreateShader GL_VERTEX_SHADER,
               .glShaderSource (b.glCreateShader GL_VERTEX_SHADER) vShader vShader.length,
               .glCompileShader (b.glCreateShader GL_VERTEX_SHADER),
               .glGetShaderivCompileStatus (b.glCreateShader GL_VERTEX_SHADER),
               .glAttachShader b.glCreateProgram (b.glCreateShader GL_VERTEX_SHADER),
               .glCreateShader GL_FRAGMENT_SHADER,
               .glShaderSource (b.glCreateShader GL_FRAGMENT_SHADER) fShader fShader.length,
               .glCompileShader (b.glCreateShader GL_FRAGMENT_SHADER),
               .glGetShaderivCompileStatus (b.glCreateShader GL_FRAGMENT_SHADER),
               .glAttachShader b.glCreateProgram (b.glCreateShader GL_FRAGMENT_SHADER),
               .glLinkProgram b.glCreateProgram,
               .glGetProgramiv b.glCreateProgram .GL_LINK_STATUS,
               .glValidateProgram b.glCreateProgram,
               .glGetProgramiv b.glCreateProgram .GL_VALIDATE_STATUS,
               .glGetUniformLocation b.glCreateProgram "model",
               .glGetUniformLocation b.glCreateProgram "projection"] }) ∧
      (b.validateStatus = false →
        CompileShaders b w =
          { w with
            shader := b.glCreateProgram
            calls := w.calls ++
              [.glCreateProgram,
               .glCreateShader GL_VERTEX_SHADER,
               .glShaderSource (b.glCreateShader GL_VERTEX_SHADER) vShader vShader.length,
               .glCompileShader (b.glCreateShader GL_VERTEX_SHADER),
               .glGetShaderivCompileStatus (b.glCreateShader GL_VERTEX_SHADER),
               .glAttachShader b.glCreateProgram (b.glCreateShader GL_VERTEX_SHADER),
               .glCreateShader GL_FRAGMENT_SHADER,
               .glShaderSource (b.glCreateShader GL_FRAGMENT_SHADER) fShader fShader.length,
               .glCompileShader (b.glCreateShader GL_FRAGMENT_SHADER),
               .glGetShaderivCompileStatus (b.glCreateShader GL_FRAGMENT_SHADER),
               .glAttachShader b.glCreateProgram (b.glCreateShader GL_FRAGMENT_SHADER),
               .glLinkProgram b.glCreateProgram,
               .glGetProgramiv b.glCreateProgram .GL_LINK_STATUS,
               .glValidateProgram b.glCreateProgram,
               .glGetProgramiv b.glCreateProgram .GL_VALIDATE_STATUS,
               .glGetProgramInfoLog b.glCreateProgram eLogSize]
            out := w.out ++ [.errorValidating (fillLog b.validateInfoLog)] }) := by
  constructor <;> intro hva <;>
    simp [CompileShaders, AddShader, World.call, World.printf, hp, hv, hf, hl, hva]

/-- The hypotheses of C8 (amended) hold at a backend whose validate-status query
answers false: the uniform variables keep their initial value 0. -/
theorem C8_validation_gates_uniforms_witness :
    (statusBackend true true true false).glCreateProgram ≠ 0 ∧
      (statusBackend true true true false).validateStatus = false ∧
      (CompileShaders (statusBackend true true true false) initWorld).uniformModel = 0 := by
  refine ⟨by decide, rfl, ?_⟩
  rw [(C8_validation_gates_uniforms (statusBackend true true true false) initWorld
    (by decide) rfl rfl rfl).2 rfl]
  rfl

/-! ## Setup and render loop of `main` -/

theorem CompileShaders_shader (b : Backend) (w : World) :
    (CompileShaders b w).shader = b.glCreateProgram := by
  by_cases hp : b.glCreateProgram = 0 <;>
    cases hv : b.compileStatus GL_VERTEX_SHADER <;>
    cases hf : b.compileStatus GL_FRAGMENT_SHADER <;>
    cases hl : b.linkStatus <;>
    cases hva : b.validateStatus <;>
    simp [CompileShaders, AddShader, World.call, World.printf, hp, hv, hf, hl, hva]

theorem renderFrame_world (st : LoopState) :
    (renderFrame st).world =
        { st.world with
          calls := st.world.calls ++
            frameCalls st.world
              (.model (advance st.anim).triOffset (advance st.anim).currentDegrees)
              st.projection } ∧
      (renderFrame st).projection = st.projection := by
  simp [renderFrame, World.call, frameCalls, drawCount]

theorem renderLoop_globals (n : ℕ) (st : LoopState) :
    (renderLoop n st).projection = st.projection ∧
      (renderLoop n st).world.shader = st.world.shader ∧
      (renderLoop n st).world.uniformModel = st.world.uniformModel ∧
      (renderLoop n st).world.uniformProjection = st.world.uniformProjection ∧
      (renderLoop n st).world.VAO = st.world.VAO ∧
      (renderLoop n st).world.IBO = st.world.IBO := by
  induction n with
  | zero => simp [renderLoop]
  | succ k ih =>
    obtain ⟨h1, h2⟩ := renderFrame_world (renderLoop k st)
    simp only [renderLoop]
    rw [h2, h1]
    exact ih

theorem CompileShaders_handles (b : Backend) (w : World) :
    (CompileShaders b w).VAO = w.VAO ∧ (CompileShaders b w).IBO = w.IBO ∧
      (CompileShaders b w).uniformModel =
        (if b.glCreateProgram ≠ 0 ∧ b.linkStatus = true ∧ b.validateStatus = true
          then toGLuint (b.glGetUniformLocation "model") else w.uniformModel) ∧
      (CompileShaders b w).uniformProjection =
        (if b.glCreateProgram ≠ 0 ∧ b.linkStatus = true ∧ b.validateStatus = true
          then toGLuint (b.glGetUniformLocation "projection") else w.uniformProjection) := by
  by_cases hp : b.glCreateProgram = 0 <;>
    cases hv : b.compileStatus GL_VERTEX_SHADER <;>
    cases hf : b.compileStatus GL_FRAGMENT_SHADER <;>
    cases hl : b.linkStatus <;>
    cases hva : b.validateStatus <;>
    simp [CompileShaders, AddShader, World.call, World.printf, hp, hv, hf, hl, hva]

theorem CreateTriangle_handles (b : Backend) (w : World) :
    (CreateTriangle b w).VAO = b.genVAO ∧ (CreateTriangle b w).IBO = b.genIBO ∧
      (CreateTriangle b w).uniformModel = w.uniformModel ∧
      (CreateTriangle b w).uniformProjection = w.uniformProjection := by
  simp [CreateTriangle, World.call]

theorem mainSetup_ok (b : Backend) (h1 : b.glfwInit = true) (h2 : b.glfwCreateWindow = true)
    (h3 : b.glewInit = true) :
    ∃ w0 : World, w0.uniformModel = 0 ∧ w0.uniformProjection = 0 ∧
      mainSetup b = .ok
        { world := CompileShaders b (CreateTriangle b w0)
          anim := initAnim
          projection := .projection b.bufferWidth b.bufferHeight } := by
  simp only [mainSetup, h1, h2, h3, Bool.not_true, Bool.false_eq_true, if_false]
  exact ⟨_, rfl, rfl, rfl⟩

/-- The calls of iteration `n + 1` of the render loop. -/
theorem renderLoop_step (n : ℕ) (st : LoopState) (h : st.anim = initAnim) :
    (renderLoop (n + 1) st).world.calls =
      (renderLoop n st).world.calls ++
        frameCalls st.world
          (.model (animAfter (n + 1)).triOffset (animAfter (n + 1)).currentDegrees)
          st.projection := by
  obtain ⟨g1, g2, g3, g4, g5, g6⟩ := renderLoop_globals n st
  have ha := renderLoop_anim n st h
  simp only [renderLoop]
  rw [(renderFrame_world _).1, ha, g1]
  simp only [frameCalls, g2, g3, g4, g5, g6, animAfter]

/-- C7, as stated, fails: with a vertex stage that does not compile and a link
that fails, `main` still enters the render loop, and its first iteration
activates the program handle 3 and draws with it. -/
theorem C7_draw_after_failed_setup :
    (statusBackend false true false true).compileStatus GL_VERTEX_SHADER = false ∧
      (statusBackend false true false true).linkStatus = false ∧
      ∃ pre post, (main (statusBackend false true false true) 1).1.calls =
        pre ++
          [.glUseProgram 3,
           .glUniformMatrix4fv 0 (.model (animAfter 1).triOffset (animAfter 1).currentDegrees),
           .glUniformMatrix4fv 0 (.projection 800 600),
           .glBindVertexArray 1,
           .glBindBuffer .GL_ELEMENT_ARRAY_BUFFER 1,
           .glDrawElementsTriangles 18] ++ post := by
  refine ⟨rfl, rfl, ?_⟩
  obtain ⟨w0, hm, hpj, hst⟩ :=
    mainSetup_ok (statusBackend false true false true) rfl rfl rfl
  obtain ⟨c1, c2, c3, c4⟩ :=
    CompileShaders_handles (statusBackend false true false true)
      (CreateTriangle (statusBackend false true false true) w0)
  obtain ⟨t1, t2, t3, t4⟩ := CreateTriangle_handles (statusBackend false true false true) w0
  have c0 := CompileShaders_shader (statusBackend false true false true)
      (CreateTriangle (statusBackend false true false true) w0)
  simp only [main, hst]
  simp only [World.call]
  rw [renderLoop_step 0 _ rfl]
  simp only [renderLoop, frameCalls, c0, c1, c2, c3, c4, t1, t2, t3, t4, hm, hpj]
  refine ⟨(CompileShaders (statusBackend false true false true)
        (CreateTriangle (statusBackend false true false true) w0)).calls ++
      [.glfwWindowShouldClose, .glfwPollEvents, .glClearColor, .glClearColorAndDepth],
    [.glBindBuffer .GL_ELEMENT_ARRAY_BUFFER 0, .glBindVertexArray 0, .glUseProgram 0,
     .glfwSwapBuffers, .glfwWindowShouldClose], ?_⟩
  simp [statusBackend, toGLint]

/-- C7, amended. `main` never looks at the outcome of `CompileShaders`: whenever
the window and context initialisation succeeds, the render loop is entered
with `shader` holding whatever `glCreateProgram` returned, and every iteration
activates that handle with `glUseProgram` and then draws 18 indices with
`glDrawElements`, whether or not the program was created, the stages compiled
and the link succeeded. -/
theorem C7_frames_ignore_setup_outcome (b : Backend) (frames : ℕ)
    (h1 : b.glfwInit = true) (h2 : b.glfwCreateWindow = true) (h3 : b.glewInit = true) :
    ∃ st, mainSetup b = .ok st ∧
      st.world.shader = b.glCreateProgram ∧
      (main b frames).2 = 0 ∧
      (main b frames).1.calls = (renderLoop frames st).world.calls ++ [.glfwWindowShouldClose] ∧
      ∀ n : ℕ, issued (renderLoop n st).world (renderLoop (n + 1) st).world =
        [.glfwWindowShouldClose, .glfwPollEvents, .glClearColor, .glClearColorAndDepth,
         .glUseProgram b.glCreateProgram,
         .glUniformMatrix4fv (toGLint st.world.uniformModel)
           (.model (animAfter (n + 1)).triOffset (animAfter (n + 1)).currentDegrees),
         .glUniformMatrix4fv (toGLint st.world.uniformProjection)
           (.projection b.bufferWidth b.bufferHeight),
         .glBindVertexArray b.genVAO,
         .glBindBuffer .GL_ELEMENT_ARRAY_BUFFER b.genIBO,
         .glDrawElementsTriangles 18,
         .glBindBuffer .GL_ELEMENT_ARRAY_BUFFER 0,
         .glBindVertexArray 0,
         .glUseProgram 0,
         .glfwSwapBuffers] := by
  obtain ⟨w0, -, -, hst⟩ := mainSetup_ok b h1 h2 h3
  obtain ⟨c1, c2, -, -⟩ := CompileShaders_handles b (CreateTriangle b w0)
  obtain ⟨t1, t2, -, -⟩ := CreateTriangle_handles b w0
  have c0 := CompileShaders_shader b (CreateTriangle b w0)
  refine ⟨_, hst, c0, ?_, ?_, fun n => ?_⟩
  · simp only [main, hst]
  · simp only [main, hst, World.call]
  · apply issued_of_append
    rw [renderLoop_step n _ rfl]
    simp only [frameCalls, c0, c1, c2, t1, t2]

/-- The hypotheses of C7 (amended) hold at a backend whose vertex stage does not
compile and whose link fails: `main` runs its frame and returns 0. -/
theorem C7_frames_ignore_setup_outcome_witness :
    (statusBackend false true false true).glfwInit = true ∧
      (statusBackend false true false true).glfwCreateWindow = true ∧
      (statusBackend false true false true).glewInit = true ∧
      (statusBackend false true false true).linkStatus = false ∧
      (main (statusBackend false true false true) 1).2 = 0 :=
  ⟨rfl, rfl, rfl, rfl,
    (C7_frames_ignore_setup_outcome (statusBackend false true false true) 1 rfl rfl rfl).elim
      fun _ h => h.2.2.1⟩

end MatrixGraphic
